import Mathlib

/-!
Verification of the dispatch and policy layer of the `mcp-database-server`
repository (server.ts as embedded in the source tree, together with the
SQLite and LDAP adapters).  The definitions below are a shallow embedding
of the TypeScript source: the `CallTool` request handler becomes the pure
function `handle`, the `ListTools` handler becomes `listTools`, adapter
method invocations are recorded as an explicit trace of `AdapterCall`s, and
the untyped JSON arguments object becomes an association list of `JVal`s.
-/

namespace MCPDB

/-! ## JSON-like values (the untyped `arguments` object and result payloads) -/

/-- Untyped structured data, as passed in the invocation envelope's
`arguments` field and returned by adapter methods. -/
inductive JVal where
  | str (s : String)
  | num (n : Int)
  | bool (b : Bool)
  | arr (xs : List JVal)
  | obj (fs : List (String × JVal))
  | null

/-- JavaScript truthiness, as used by the `x || default` idiom in the
handlers (`schema || "public"`, `ttl || null`, `base || "root"`, ...). -/
def jsTruthy : JVal → Bool
  | .str s => s ≠ ""
  | .num n => n ≠ 0
  | .bool b => b
  | .arr _ => true
  | .obj _ => true
  | .null => false

/-- The `x || d` idiom applied to a possibly-absent argument
(absent / `undefined` is falsy). -/
def jsOr (v : Option JVal) (d : JVal) : JVal :=
  match v with
  | some x => if jsTruthy x then x else d
  | none => d

/-- A destructuring default `const { x = d } = args`: the default applies
exactly when the property is absent. -/
def jsDefault (v : Option JVal) (d : JVal) : JVal :=
  v.getD d

/-- The `.length` property read on an adapter result (`keys.length`,
`documents.length`, ...): defined for arrays and strings, `undefined`
(here `none`, dropped from the serialized object) otherwise. -/
def jLength : JVal → Option JVal
  | .arr xs => some (.num xs.length)
  | .str s => some (.num s.length)
  | _ => none

mutual

/-- Serialization of a result payload to the single text field of the
response envelope (`JSON.stringify`; rendered compactly, whitespace of the
pretty-printer is not modelled). -/
def serialize : JVal → String
  | .str s => "\"" ++ s ++ "\""
  | .num n => toString n
  | .bool b => if b then "true" else "false"
  | .arr xs => "[" ++ serializeList xs ++ "]"
  | .obj fs => "\x7b" ++ serializeFields fs ++ "\x7d"
  | .null => "null"

def serializeList : List JVal → String
  | [] => ""
  | [x] => serialize x
  | x :: xs => serialize x ++ "," ++ serializeList xs

def serializeFields : List (String × JVal) → String
  | [] => ""
  | [(k, v)] => "\"" ++ k ++ "\":" ++ serialize v
  | (k, v) :: fs => "\"" ++ k ++ "\":" ++ serialize v ++ "," ++ serializeFields fs

end

/-- Build a JSON object from possibly-`undefined` fields: `JSON.stringify`
drops object properties whose value is `undefined`. -/
def jObj (fs : List (String × Option JVal)) : JVal :=
  .obj (fs.filterMap fun p => p.2.map fun v => (p.1, v))

/-- The untyped `arguments` object of an invocation. -/
def Args := List (String × JVal)

/-- Property access `args.x` / destructuring `const { x } = args`. -/
def getArg (args : Args) (k : String) : Option JVal :=
  (List.find? (fun p => p.1 == k) args).map (·.2)

/-! ## Backend kinds and server flags -/

/-- The backend families the entry point can construct
(`DB_TYPE` in index.ts). Exactly one is active per process. -/
inductive BackendKind where
  | postgres
  | mysql
  | sqlite
  | redis
  | mongo
  | ldap
deriving DecidableEq, Repr

/-- `this.isRedis = adapterType === "RedisAdapter"` in the server
constructor (the adapter is tagged by its constructor name). -/
def isRedisKind : BackendKind → Bool
  | .redis => true
  | _ => false

/-- `this.isMongo = adapterType === "MongoAdapter"`. -/
def isMongoKind : BackendKind → Bool
  | .mongo => true
  | _ => false

/-- `this.isLDAP = adapterType === "LDAPAdapter"`. -/
def isLDAPKind : BackendKind → Bool
  | .ldap => true
  | _ => false

/-! ## Read-only policy resolution -/

/-- Dispatcher resolution of the read-only flag (server.ts constructor):
`this.readOnly = process.env.READ_ONLY_MODE !== "false" &&
process.env.READ_ONLY_MODE !== "0"`.  `none` models an absent variable. -/
def resolveReadOnly (env : Option String) : Bool :=
  !(env == some "false") && !(env == some "0")

/-- The policy mode of the spec's data model, `ReadOnly | ReadWrite`. -/
inductive PolicyMode where
  | ReadOnly
  | ReadWrite
deriving DecidableEq, Repr

/-- The spec-level view of the resolved flag. -/
def resolvePolicyMode (env : Option String) : PolicyMode :=
  if resolveReadOnly env then .ReadOnly else .ReadWrite

/-- SQLite adapter resolution of the same variable (sqlite adapter
constructor): `readonly: process.env.READ_ONLY_MODE === "true" ||
process.env.READ_ONLY_MODE !== "false"`. -/
def sqliteReadonlyFlag (env : Option String) : Bool :=
  (env == some "true") || !(env == some "false")

/-- Immutable per-process server state fixed by the constructor. -/
structure ServerState where
  kind : BackendKind
  readOnly : Bool

/-- The fixed policy-violation message thrown by `checkReadOnly`. -/
def readOnlyMessage : String :=
  "Server is running in read-only mode. Write operations are disabled."

/-- `checkReadOnly()`: throws the fixed message when the server is
read-only; modelled as `some message` for a throw, `none` for a return. -/
def checkReadOnly (st : ServerState) : Option String :=
  if st.readOnly then some readOnlyMessage else none

/-! ## Adapter interface

Each adapter method invocation performed by the dispatcher is recorded as
an `AdapterCall` carrying exactly the (possibly absent) argument values the
dispatcher passes; the adapter's behaviour is an arbitrary function from
calls to either a result payload or a thrown error message. -/

inductive AdapterCall where
  | query (sql : String)
  | execute (sql : Option JVal)
  | listTables (schema : JVal)
  | describeTable (table : Option JVal) (schema : JVal)
  | listSchemas
  | explainQuery (sql : Option JVal)
  | getIndexes (table : Option JVal) (schema : JVal)
  | getForeignKeys (table : Option JVal) (schema : JVal)
  | getTableSize (table : Option JVal) (schema : JVal)
  | listViews (schema : JVal)
  | describeView (view : Option JVal) (schema : JVal)
  | searchTables (pattern : Option JVal) (schema : JVal)
  | getTableStats (table : Option JVal) (schema : JVal)
  | redisGet (key : Option JVal)
  | redisSet (key value ttl : Option JVal)
  | redisDel (key : Option JVal)
  | redisKeys (pattern : Option JVal)
  | redisExists (key : Option JVal)
  | redisTtl (key : Option JVal)
  | redisExpire (key seconds : Option JVal)
  | redisType (key : Option JVal)
  | redisDbsize
  | redisInfo (sec : Option JVal)
  | redisHget (key fld : Option JVal)
  | redisHset (key fld value : Option JVal)
  | redisHgetall (key : Option JVal)
  | redisLrange (key start stop : Option JVal)
  | redisSmembers (key : Option JVal)
  | redisZrange (key start stop withScores : Option JVal)
  | mongoFind (collection : Option JVal) (filter limit skip : JVal)
  | mongoFindOne (collection : Option JVal) (filter : JVal)
  | mongoInsertOne (collection document : Option JVal)
  | mongoInsertMany (collection documents : Option JVal)
  | mongoUpdateOne (collection filter update : Option JVal)
  | mongoUpdateMany (collection filter update : Option JVal)
  | mongoDeleteOne (collection filter : Option JVal)
  | mongoDeleteMany (collection filter : Option JVal)
  | mongoCount (collection : Option JVal) (filter : JVal)
  | mongoAggregate (collection pipeline : Option JVal)
  | mongoListCollections
  | mongoGetCollectionStats (collection : Option JVal)
  | mongoGetIndexes (collection : Option JVal)
  | mongoCreateIndex (collection keys : Option JVal) (options : JVal)
  | mongoGetDatabaseStats
  | ldapSearch (base filter : Option JVal) (scope attrs : JVal)
  | ldapAuthenticate (dn password : Option JVal)
  | ldapAdd (dn attrs : Option JVal)
  | ldapModify (dn change : Option JVal)
  | ldapDelete (dn : Option JVal)
  | ldapCompare (dn attr value : Option JVal)
  | ldapSearchFolderStructure (base depth includeEntries : JVal)
  | ldapListFolders (base : JVal)

/-- The active adapter, abstracted by its observable behaviour: every
method invocation either returns a payload or throws an error message. -/
structure Adapter where
  behave : AdapterCall → Except String JVal

/-- Outcome of the body of a `switch` case: the adapter calls performed (in
order) and either the serialized success text or a thrown error message. -/
structure HandlerOutput where
  calls : List AdapterCall
  out : Except String String

/-- Perform one adapter call; on success the result is wrapped into the
case's response object and serialized, a thrown error propagates. -/
def runCall (ad : Adapter) (c : AdapterCall) (wrap : JVal → JVal) : HandlerOutput :=
  match ad.behave c with
  | .ok v => ⟨[c], .ok (serialize (wrap v))⟩
  | .error e => ⟨[c], .error e⟩

/-- A `switch` case body of the `CallTool` handler. -/
abbrev CaseHandler := ServerState → Adapter → Args → HandlerOutput

/-- Applicability error thrown by Redis-only cases. -/
def redisOnlyMessage : String := "This tool is only available for Redis"

/-- Applicability error thrown by MongoDB-only cases. -/
def mongoOnlyMessage : String := "This tool is only available for MongoDB"

/-- Applicability error thrown by LDAP-only cases. -/
def ldapOnlyMessage : String := "This tool is only available for LDAP"

/-- Statement-class rejection thrown by the `query` case. -/
def queryOnlySelectMessage : String := "Query tool only supports SELECT statements"

/-- Message of the TypeError raised by `sql.trim()` when `sql` is not a
string (exact JavaScript wording not modelled). -/
def undefinedTrimMessage : String := "Cannot read properties of undefined"

/-- Whitespace trimmed by `String.prototype.trim` (restricted to the ASCII
whitespace characters; the further Unicode space characters JavaScript also
trims are irrelevant to the SELECT-prefix test). -/
def jsWhitespace (c : Char) : Bool :=
  c = ' ' || c = '\t' || c = '\n' || c = '\r'

/-- ASCII upper-casing of one character (`String.prototype.toUpperCase`,
restricted to ASCII, which is all the SELECT-prefix test inspects). -/
def asciiUpper (c : Char) : Char :=
  if 97 ≤ c.toNat && c.toNat ≤ 122 then Char.ofNat (c.toNat - 32) else c

/-- `trim()` on the character list of a string. -/
def trimChars (cs : List Char) : List Char :=
  ((cs.dropWhile jsWhitespace).reverse.dropWhile jsWhitespace).reverse

/-- The lexical pure-retrieval test of the `query` case:
`sql.trim().toUpperCase().startsWith("SELECT")`. -/
def selectPrefixed (s : String) : Bool :=
  List.isPrefixOf "SELECT".data ((trimChars s.data).map asciiUpper)

/-- `case "query"`: reject non-SELECT statements before calling the
adapter; no policy-gate consultation. -/
def queryCase : CaseHandler := fun _st ad args =>
  match getArg args "sql" with
  | some (.str sql) =>
    if !(selectPrefixed sql) then ⟨[], .error queryOnlySelectMessage⟩
    else runCall ad (.query sql) id
  | _ => ⟨[], .error undefinedTrimMessage⟩

/-- `case "execute_sql"`: policy gate, then `adapter.execute(sql)`. -/
def executeSqlCase : CaseHandler := fun st ad args =>
  match checkReadOnly st with
  | some e => ⟨[], .error e⟩
  | none => runCall ad (.execute (getArg args "sql")) id

/-- `case "list_tables"`. -/
def listTablesCase : CaseHandler := fun _st ad args =>
  let schema := jsOr (getArg args "schema") (.str "public")
  runCall ad (.listTables schema) fun v => .obj [("tables", v), ("schema", schema)]

/-- `case "describe_table"`. -/
def describeTableCase : CaseHandler := fun _st ad args =>
  let table := getArg args "table"
  let schema := jsDefault (getArg args "schema") (.str "public")
  runCall ad (.describeTable table schema) id

/-- `case "list_schemas"`. -/
def listSchemasCase : CaseHandler := fun _st ad _args =>
  runCall ad .listSchemas fun v => .obj [("schemas", v)]

/-- `case "explain_query"`. -/
def explainQueryCase : CaseHandler := fun _st ad args =>
  runCall ad (.explainQuery (getArg args "sql")) id

/-- `case "get_indexes"`. -/
def getIndexesCase : CaseHandler := fun _st ad args =>
  let table := getArg args "table"
  let schema := jsDefault (getArg args "schema") (.str "public")
  runCall ad (.getIndexes table schema) fun v =>
    jObj [("table", table), ("schema", some schema), ("indexes", some v)]

/-- `case "get_foreign_keys"`. -/
def getForeignKeysCase : CaseHandler := fun _st ad args =>
  let table := getArg args "table"
  let schema := jsDefault (getArg args "schema") (.str "public")
  runCall ad (.getForeignKeys table schema) fun v =>
    jObj [("table", table), ("schema", some schema), ("foreign_keys", some v)]

/-- `case "get_table_size"`. -/
def getTableSizeCase : CaseHandler := fun _st ad args =>
  let table := getArg args "table"
  let schema := jsDefault (getArg args "schema") (.str "public")
  runCall ad (.getTableSize table schema) id

/-- `case "list_views"`. -/
def listViewsCase : CaseHandler := fun _st ad args =>
  let schema := jsOr (getArg args "schema") (.str "public")
  runCall ad (.listViews schema) fun v => .obj [("views", v), ("schema", schema)]

/-- `case "describe_view"`. -/
def describeViewCase : CaseHandler := fun _st ad args =>
  let view := getArg args "view"
  let schema := jsDefault (getArg args "schema") (.str "public")
  runCall ad (.describeView view schema) id

/-- `case "search_tables"`. -/
def searchTablesCase : CaseHandler := fun _st ad args =>
  let pat := getArg args "pattern"
  let schema := jsDefault (getArg args "schema") (.str "public")
  runCall ad (.searchTables pat schema) fun v =>
    jObj [("tables", some v), ("pattern", pat), ("schema", some schema)]

/-- `case "get_table_stats"`. -/
def getTableStatsCase : CaseHandler := fun _st ad args =>
  let table := getArg args "table"
  let schema := jsDefault (getArg args "schema") (.str "public")
  runCall ad (.getTableStats table schema) id

/-- `case "redis_get"`. -/
def redisGetCase : CaseHandler := fun st ad args =>
  if !isRedisKind st.kind then ⟨[], .error redisOnlyMessage⟩
  else
    let key := getArg args "key"
    runCall ad (.redisGet key) fun v => jObj [("key", key), ("value", some v)]

/-- `case "redis_set"`: policy gate first, then applicability. -/
def redisSetCase : CaseHandler := fun st ad args =>
  match checkReadOnly st with
  | some e => ⟨[], .error e⟩
  | none =>
    if !isRedisKind st.kind then ⟨[], .error redisOnlyMessage⟩
    else
      let key := getArg args "key"
      let value := getArg args "value"
      let ttl := getArg args "ttl"
      runCall ad (.redisSet key value ttl) fun _v =>
        jObj [("key", key), ("value", value), ("ttl", some (jsOr ttl .null)),
          ("status", some (.str "OK"))]

/-- `case "redis_del"`. -/
def redisDelCase : CaseHandler := fun st ad args =>
  match checkReadOnly st with
  | some e => ⟨[], .error e⟩
  | none =>
    if !isRedisKind st.kind then ⟨[], .error redisOnlyMessage⟩
    else
      let key := getArg args "key"
      runCall ad (.redisDel key) fun v => jObj [("key", key), ("deleted", some v)]

/-- `case "redis_keys"`. -/
def redisKeysCase : CaseHandler := fun st ad args =>
  if !isRedisKind st.kind then ⟨[], .error redisOnlyMessage⟩
  else
    let pat := getArg args "pattern"
    runCall ad (.redisKeys pat) fun v =>
      jObj [("pattern", pat), ("keys", some v), ("count", jLength v)]

/-- `case "redis_exists"`. -/
def redisExistsCase : CaseHandler := fun st ad args =>
  if !isRedisKind st.kind then ⟨[], .error redisOnlyMessage⟩
  else
    let key := getArg args "key"
    runCall ad (.redisExists key) fun v => jObj [("key", key), ("exists", some v)]

/-- `case "redis_ttl"`. -/
def redisTtlCase : CaseHandler := fun st ad args =>
  if !isRedisKind st.kind then ⟨[], .error redisOnlyMessage⟩
  else
    let key := getArg args "key"
    runCall ad (.redisTtl key) fun v => jObj [("key", key), ("ttl", some v)]

/-- `case "redis_expire"`: policy gate first, then applicability. -/
def redisExpireCase : CaseHandler := fun st ad args =>
  match checkReadOnly st with
  | some e => ⟨[], .error e⟩
  | none =>
    if !isRedisKind st.kind then ⟨[], .error redisOnlyMessage⟩
    else
      let key := getArg args "key"
      let seconds := getArg args "seconds"
      runCall ad (.redisExpire key seconds) fun v =>
        jObj [("key", key), ("seconds", seconds), ("result", some v)]

/-- `case "redis_type"`. -/
def redisTypeCase : CaseHandler := fun st ad args =>
  if !isRedisKind st.kind then ⟨[], .error redisOnlyMessage⟩
  else
    let key := getArg args "key"
    runCall ad (.redisType key) fun v => jObj [("key", key), ("type", some v)]

/-- `case "redis_dbsize"`. -/
def redisDbsizeCase : CaseHandler := fun st ad _args =>
  if !isRedisKind st.kind then ⟨[], .error redisOnlyMessage⟩
  else runCall ad .redisDbsize fun v => .obj [("dbsize", v)]

/-- `case "redis_info"`. -/
def redisInfoCase : CaseHandler := fun st ad args =>
  if !isRedisKind st.kind then ⟨[], .error redisOnlyMessage⟩
  else
    let sec := getArg args "section"
    runCall ad (.redisInfo sec) fun v =>
      .obj [("section", jsOr sec (.str "all")), ("info", v)]

/-- `case "redis_hget"`. -/
def redisHgetCase : CaseHandler := fun st ad args =>
  if !isRedisKind st.kind then ⟨[], .error redisOnlyMessage⟩
  else
    let key := getArg args "key"
    let fld := getArg args "field"
    runCall ad (.redisHget key fld) fun v =>
      jObj [("key", key), ("field", fld), ("value", some v)]

/-- `case "redis_hset"`: policy gate first, then applicability. -/
def redisHsetCase : CaseHandler := fun st ad args =>
  match checkReadOnly st with
  | some e => ⟨[], .error e⟩
  | none =>
    if !isRedisKind st.kind then ⟨[], .error redisOnlyMessage⟩
    else
      let key := getArg args "key"
      let fld := getArg args "field"
      let value := getArg args "value"
      runCall ad (.redisHset key fld value) fun v =>
        jObj [("key", key), ("field", fld), ("value", value), ("result", some v)]

/-- `case "redis_hgetall"`. -/
def redisHgetallCase : CaseHandler := fun st ad args =>
  if !isRedisKind st.kind then ⟨[], .error redisOnlyMessage⟩
  else
    let key := getArg args "key"
    runCall ad (.redisHgetall key) fun v => jObj [("key", key), ("hash", some v)]

/-- `case "redis_lrange"`. -/
def redisLrangeCase : CaseHandler := fun st ad args =>
  if !isRedisKind st.kind then ⟨[], .error redisOnlyMessage⟩
  else
    let key := getArg args "key"
    let start := getArg args "start"
    let stop := getArg args "stop"
    runCall ad (.redisLrange key start stop) fun v =>
      jObj [("key", key), ("start", start), ("stop", stop), ("list", some v)]

/-- `case "redis_smembers"`. -/
def redisSmembersCase : CaseHandler := fun st ad args =>
  if !isRedisKind st.kind then ⟨[], .error redisOnlyMessage⟩
  else
    let key := getArg args "key"
    runCall ad (.redisSmembers key) fun v => jObj [("key", key), ("members", some v)]

/-- `case "redis_zrange"`. -/
def redisZrangeCase : CaseHandler := fun st ad args =>
  if !isRedisKind st.kind then ⟨[], .error redisOnlyMessage⟩
  else
    let key := getArg args "key"
    let start := getArg args "start"
    let stop := getArg args "stop"
    let ws := getArg args "with_scores"
    runCall ad (.redisZrange key start stop ws) fun v =>
      jObj [("key", key), ("start", start), ("stop", stop),
        ("with_scores", ws), ("members", some v)]

/-- `case "mongo_find"`. -/
def mongoFindCase : CaseHandler := fun st ad args =>
  if !isMongoKind st.kind then ⟨[], .error mongoOnlyMessage⟩
  else
    let coll := getArg args "collection"
    let filt := jsDefault (getArg args "filter") (.obj [])
    let lim := jsDefault (getArg args "limit") (.num 100)
    let skp := jsDefault (getArg args "skip") (.num 0)
    runCall ad (.mongoFind coll filt lim skp) fun v =>
      jObj [("collection", coll), ("filter", some filt), ("limit", some lim),
        ("skip", some skp), ("documents", some v), ("count", jLength v)]

/-- `case "mongo_find_one"`. -/
def mongoFindOneCase : CaseHandler := fun st ad args =>
  if !isMongoKind st.kind then ⟨[], .error mongoOnlyMessage⟩
  else
    let coll := getArg args "collection"
    let filt := jsDefault (getArg args "filter") (.obj [])
    runCall ad (.mongoFindOne coll filt) fun v =>
      jObj [("collection", coll), ("filter", some filt), ("document", some v)]

/-- `case "mongo_insert_one"`: policy gate first, then applicability. -/
def mongoInsertOneCase : CaseHandler := fun st ad args =>
  match checkReadOnly st with
  | some e => ⟨[], .error e⟩
  | none =>
    if !isMongoKind st.kind then ⟨[], .error mongoOnlyMessage⟩
    else
      let coll := getArg args "collection"
      let doc := getArg args "document"
      runCall ad (.mongoInsertOne coll doc) fun v =>
        jObj [("collection", coll), ("document", doc), ("inserted_id", some v)]

/-- `case "mongo_insert_many"`: policy gate first, then applicability. -/
def mongoInsertManyCase : CaseHandler := fun st ad args =>
  match checkReadOnly st with
  | some e => ⟨[], .error e⟩
  | none =>
    if !isMongoKind st.kind then ⟨[], .error mongoOnlyMessage⟩
    else
      let coll := getArg args "collection"
      let docs := getArg args "documents"
      runCall ad (.mongoInsertMany coll docs) fun v =>
        jObj [("collection", coll), ("documents", docs),
          ("inserted_ids", some v), ("count", jLength v)]

/-- `case "mongo_update_one"`: policy gate first, then applicability. -/
def mongoUpdateOneCase : CaseHandler := fun st ad args =>
  match checkReadOnly st with
  | some e => ⟨[], .error e⟩
  | none =>
    if !isMongoKind st.kind then ⟨[], .error mongoOnlyMessage⟩
    else
      let coll := getArg args "collection"
      let filt := getArg args "filter"
      let upd := getArg args "update"
      runCall ad (.mongoUpdateOne coll filt upd) fun v =>
        jObj [("collection", coll), ("filter", filt), ("update", upd),
          ("modified_count", some v)]

/-- `case "mongo_update_many"`: policy gate first, then applicability. -/
def mongoUpdateManyCase : CaseHandler := fun st ad args =>
  match checkReadOnly st with
  | some e => ⟨[], .error e⟩
  | none =>
    if !isMongoKind st.kind then ⟨[], .error mongoOnlyMessage⟩
    else
      let coll := getArg args "collection"
      let filt := getArg args "filter"
      let upd := getArg args "update"
      runCall ad (.mongoUpdateMany coll filt upd) fun v =>
        jObj [("collection", coll), ("filter", filt), ("update", upd),
          ("modified_count", some v)]

/-- `case "mongo_delete_one"`: policy gate first, then applicability. -/
def mongoDeleteOneCase : CaseHandler := fun st ad args =>
  match checkReadOnly st with
  | some e => ⟨[], .error e⟩
  | none =>
    if !isMongoKind st.kind then ⟨[], .error mongoOnlyMessage⟩
    else
      let coll := getArg args "collection"
      let filt := getArg args "filter"
      runCall ad (.mongoDeleteOne coll filt) fun v =>
        jObj [("collection", coll), ("filter", filt), ("deleted_count", some v)]

/-- `case "mongo_delete_many"`: policy gate first, then applicability. -/
def mongoDeleteManyCase : CaseHandler := fun st ad args =>
  match checkReadOnly st with
  | some e => ⟨[], .error e⟩
  | none =>
    if !isMongoKind st.kind then ⟨[], .error mongoOnlyMessage⟩
    else
      let coll := getArg args "collection"
      let filt := getArg args "filter"
      runCall ad (.mongoDeleteMany coll filt) fun v =>
        jObj [("collection", coll), ("filter", filt), ("deleted_count", some v)]

/-- `case "mongo_count"`. -/
def mongoCountCase : CaseHandler := fun st ad args =>
  if !isMongoKind st.kind then ⟨[], .error mongoOnlyMessage⟩
  else
    let coll := getArg args "collection"
    let filt := jsDefault (getArg args "filter") (.obj [])
    runCall ad (.mongoCount coll filt) fun v =>
      jObj [("collection", coll), ("filter", some filt), ("count", some v)]

/-- `case "mongo_aggregate"`. -/
def mongoAggregateCase : CaseHandler := fun st ad args =>
  if !isMongoKind st.kind then ⟨[], .error mongoOnlyMessage⟩
  else
    let coll := getArg args "collection"
    let pipe := getArg args "pipeline"
    runCall ad (.mongoAggregate coll pipe) fun v =>
      jObj [("collection", coll), ("pipeline", pipe), ("results", some v),
        ("count", jLength v)]

/-- `case "mongo_list_collections"`. -/
def mongoListCollectionsCase : CaseHandler := fun st ad _args =>
  if !isMongoKind st.kind then ⟨[], .error mongoOnlyMessage⟩
  else runCall ad .mongoListCollections fun v =>
    jObj [("collections", some v), ("count", jLength v)]

/-- `case "mongo_get_collection_stats"`. -/
def mongoGetCollectionStatsCase : CaseHandler := fun st ad args =>
  if !isMongoKind st.kind then ⟨[], .error mongoOnlyMessage⟩
  else runCall ad (.mongoGetCollectionStats (getArg args "collection")) id

/-- `case "mongo_get_indexes"`. -/
def mongoGetIndexesCase : CaseHandler := fun st ad args =>
  if !isMongoKind st.kind then ⟨[], .error mongoOnlyMessage⟩
  else
    let coll := getArg args "collection"
    runCall ad (.mongoGetIndexes coll) fun v =>
      jObj [("collection", coll), ("indexes", some v)]

/-- `case "mongo_create_index"`: policy gate first, then applicability. -/
def mongoCreateIndexCase : CaseHandler := fun st ad args =>
  match checkReadOnly st with
  | some e => ⟨[], .error e⟩
  | none =>
    if !isMongoKind st.kind then ⟨[], .error mongoOnlyMessage⟩
    else
      let coll := getArg args "collection"
      let keys := getArg args "keys"
      let opts := jsDefault (getArg args "options") (.obj [])
      runCall ad (.mongoCreateIndex coll keys opts) fun v =>
        jObj [("collection", coll), ("keys", keys), ("options", some opts),
          ("index_name", some v)]

/-- `case "mongo_get_database_stats"`. -/
def mongoGetDatabaseStatsCase : CaseHandler := fun st ad _args =>
  if !isMongoKind st.kind then ⟨[], .error mongoOnlyMessage⟩
  else runCall ad .mongoGetDatabaseStats id

/-- `case "ldap_search"`. -/
def ldapSearchCase : CaseHandler := fun st ad args =>
  if !isLDAPKind st.kind then ⟨[], .error ldapOnlyMessage⟩
  else
    let base := getArg args "base"
    let filt := getArg args "filter"
    let scope := jsDefault (getArg args "scope") (.str "sub")
    let attrs := jsDefault (getArg args "attributes") (.arr [.str "*"])
    runCall ad (.ldapSearch base filt scope attrs) fun v =>
      jObj [("base", base), ("filter", filt), ("scope", some scope),
        ("attributes", some attrs), ("entries", some v), ("count", jLength v)]

/-- `case "ldap_authenticate"`. -/
def ldapAuthenticateCase : CaseHandler := fun st ad args =>
  if !isLDAPKind st.kind then ⟨[], .error ldapOnlyMessage⟩
  else
    let dn := getArg args "dn"
    let pw := getArg args "password"
    runCall ad (.ldapAuthenticate dn pw) fun v =>
      jObj [("dn", dn), ("authenticated", some v)]

/-- `case "ldap_add"`: policy gate first, then applicability. -/
def ldapAddCase : CaseHandler := fun st ad args =>
  match checkReadOnly st with
  | some e => ⟨[], .error e⟩
  | none =>
    if !isLDAPKind st.kind then ⟨[], .error ldapOnlyMessage⟩
    else
      let dn := getArg args "dn"
      let attrs := getArg args "attributes"
      runCall ad (.ldapAdd dn attrs) fun _v =>
        jObj [("dn", dn), ("attributes", attrs), ("status", some (.str "OK"))]

/-- `case "ldap_modify"`: policy gate first, then applicability. -/
def ldapModifyCase : CaseHandler := fun st ad args =>
  match checkReadOnly st with
  | some e => ⟨[], .error e⟩
  | none =>
    if !isLDAPKind st.kind then ⟨[], .error ldapOnlyMessage⟩
    else
      let dn := getArg args "dn"
      let chg := getArg args "change"
      runCall ad (.ldapModify dn chg) fun _v =>
        jObj [("dn", dn), ("change", chg), ("status", some (.str "OK"))]

/-- `case "ldap_delete"`: policy gate first, then applicability. -/
def ldapDeleteCase : CaseHandler := fun st ad args =>
  match checkReadOnly st with
  | some e => ⟨[], .error e⟩
  | none =>
    if !isLDAPKind st.kind then ⟨[], .error ldapOnlyMessage⟩
    else
      let dn := getArg args "dn"
      runCall ad (.ldapDelete dn) fun _v =>
        jObj [("dn", dn), ("status", some (.str "OK"))]

/-- `case "ldap_compare"`. -/
def ldapCompareCase : CaseHandler := fun st ad args =>
  if !isLDAPKind st.kind then ⟨[], .error ldapOnlyMessage⟩
  else
    let dn := getArg args "dn"
    let attr := getArg args "attribute"
    let value := getArg args "value"
    runCall ad (.ldapCompare dn attr value) fun v =>
      jObj [("dn", dn), ("attribute", attr), ("value", value), ("matched", some v)]

/-- `case "ldap_search_folder_structure"`. -/
def ldapSearchFolderStructureCase : CaseHandler := fun st ad args =>
  if !isLDAPKind st.kind then ⟨[], .error ldapOnlyMessage⟩
  else
    let base := jsDefault (getArg args "base") (.str "")
    let depth := jsDefault (getArg args "depth") (.num 10)
    let inc := jsDefault (getArg args "include_entries") (.bool false)
    runCall ad (.ldapSearchFolderStructure base depth inc) id

/-- `case "ldap_list_folders"`. -/
def ldapListFoldersCase : CaseHandler := fun st ad args =>
  if !isLDAPKind st.kind then ⟨[], .error ldapOnlyMessage⟩
  else
    let base := jsDefault (getArg args "base") (.str "")
    runCall ad (.ldapListFolders base) fun v =>
      jObj [("base", some (jsOr (some base) (.str "root"))), ("folders", some v),
        ("count", jLength v)]

/-- The `switch (name)` of the `CallTool` handler as an ordered first-match
registry, cases in source order. -/
def toolCases : List (String × CaseHandler) :=
  [("query", queryCase),
   ("execute_sql", executeSqlCase),
   ("list_tables", listTablesCase),
   ("describe_table", describeTableCase),
   ("list_schemas", listSchemasCase),
   ("explain_query", explainQueryCase),
   ("get_indexes", getIndexesCase),
   ("get_foreign_keys", getForeignKeysCase),
   ("get_table_size", getTableSizeCase),
   ("list_views", listViewsCase),
   ("describe_view", describeViewCase),
   ("search_tables", searchTablesCase),
   ("get_table_stats", getTableStatsCase),
   ("redis_get", redisGetCase),
   ("redis_set", redisSetCase),
   ("redis_del", redisDelCase),
   ("redis_keys", redisKeysCase),
   ("redis_exists", redisExistsCase),
   ("redis_ttl", redisTtlCase),
   ("redis_expire", redisExpireCase),
   ("redis_type", redisTypeCase),
   ("redis_dbsize", redisDbsizeCase),
   ("redis_info", redisInfoCase),
   ("redis_hget", redisHgetCase),
   ("redis_hset", redisHsetCase),
   ("redis_hgetall", redisHgetallCase),
   ("redis_lrange", redisLrangeCase),
   ("redis_smembers", redisSmembersCase),
   ("redis_zrange", redisZrangeCase),
   ("mongo_find", mongoFindCase),
   ("mongo_find_one", mongoFindOneCase),
   ("mongo_insert_one", mongoInsertOneCase),
   ("mongo_insert_many", mongoInsertManyCase),
   ("mongo_update_one", mongoUpdateOneCase),
   ("mongo_update_many", mongoUpdateManyCase),
   ("mongo_delete_one", mongoDeleteOneCase),
   ("mongo_delete_many", mongoDeleteManyCase),
   ("mongo_count", mongoCountCase),
   ("mongo_aggregate", mongoAggregateCase),
   ("mongo_list_collections", mongoListCollectionsCase),
   ("mongo_get_collection_stats", mongoGetCollectionStatsCase),
   ("mongo_get_indexes", mongoGetIndexesCase),
   ("mongo_create_index", mongoCreateIndexCase),
   ("mongo_get_database_stats", mongoGetDatabaseStatsCase),
   ("ldap_search", ldapSearchCase),
   ("ldap_authenticate", ldapAuthenticateCase),
   ("ldap_add", ldapAddCase),
   ("ldap_modify", ldapModifyCase),
   ("ldap_delete", ldapDeleteCase),
   ("ldap_compare", ldapCompareCase),
   ("ldap_search_folder_structure", ldapSearchFolderStructureCase),
   ("ldap_list_folders", ldapListFoldersCase)]

/-- The body of the `try` block: dispatch on the operation name; the
`default` case throws `Unknown tool: <name>`. -/
def handleCore (st : ServerState) (ad : Adapter) (nm : String) (args : Args) :
    HandlerOutput :=
  match List.find? (fun c => c.1 == nm) toolCases with
  | some c => c.2 st ad args
  | none => ⟨[], .error ("Unknown tool: " ++ nm)⟩

/-- The uniform response envelope: a single text payload plus the error
flag (`isError = false` models an absent `isError` property). -/
structure Envelope where
  text : String
  isError : Bool
deriving DecidableEq, Repr

/-- The `CallTool` handler's `try`/`catch`: every error thrown inside the
`switch` becomes an error envelope whose text is `"Error: " + message`. -/
def handle (st : ServerState) (ad : Adapter) (nm : String) (args : Args) :
    Envelope × List AdapterCall :=
  let r := handleCore st ad nm args
  match r.out with
  | .ok payload => (⟨payload, false⟩, r.calls)
  | .error e => (⟨"Error: " ++ e, true⟩, r.calls)

/-- The full `CallTool` handler, including the adapter-null guard that sits
before the `try` block; a throw there escapes the handler (`Except.error`).
The constructor always installs an adapter, so `none` is unreachable in a
running process. -/
def handleRequest (adapter : Option Adapter) (st : ServerState) (nm : String)
    (args : Args) : Except String (Envelope × List AdapterCall) :=
  match adapter with
  | none => .error "Database adapter not initialized"
  | some ad => .ok (handle st ad nm args)

/-! ## Tool catalog (the `ListTools` handler) -/

/-- The generic SQL tool names, in listing order. -/
def sqlToolNames : List String :=
  ["query", "execute_sql", "list_tables", "describe_table", "list_schemas",
   "explain_query", "get_indexes", "get_foreign_keys", "get_table_size",
   "list_views", "describe_view", "search_tables", "get_table_stats"]

/-- The Redis-specific tool names, in listing order. -/
def redisToolNames : List String :=
  ["redis_get", "redis_set", "redis_del", "redis_keys", "redis_exists",
   "redis_ttl", "redis_expire", "redis_type", "redis_dbsize", "redis_info",
   "redis_hget", "redis_hset", "redis_hgetall", "redis_lrange",
   "redis_smembers", "redis_zrange"]

/-- The MongoDB-specific tool names, in listing order. -/
def mongoToolNames : List String :=
  ["mongo_find", "mongo_find_one", "mongo_insert_one", "mongo_insert_many",
   "mongo_update_one", "mongo_update_many", "mongo_delete_one",
   "mongo_delete_many", "mongo_count", "mongo_aggregate",
   "mongo_list_collections", "mongo_get_collection_stats",
   "mongo_get_indexes", "mongo_create_index", "mongo_get_database_stats"]

/-- The LDAP-specific tool names, in listing order. -/
def ldapToolNames : List String :=
  ["ldap_search", "ldap_authenticate", "ldap_add", "ldap_modify",
   "ldap_delete", "ldap_compare", "ldap_search_folder_structure",
   "ldap_list_folders"]

/-- Every operation name handled by the `switch`, in case order. -/
def allToolNames : List String :=
  sqlToolNames ++ redisToolNames ++ mongoToolNames ++ ldapToolNames

/-- The `ListTools` handler: SQL tools unless a Redis/Mongo/LDAP adapter is
active, plus the native tool set of the active adapter (names only; the
descriptions and parameter schemas attached in the source carry no dispatch
information). -/
def listTools (k : BackendKind) : List String :=
  (if !isRedisKind k && !isMongoKind k && !isLDAPKind k then sqlToolNames else [])
    ++ (if isRedisKind k then redisToolNames else [])
    ++ (if isMongoKind k then mongoToolNames else [])
    ++ (if isLDAPKind k then ldapToolNames else [])

/-- The operations whose case bodies invoke `checkReadOnly` (the
`mutating = true` marking of the spec). -/
def mutatingOps : List String :=
  ["execute_sql", "redis_set", "redis_del", "redis_expire", "redis_hset",
   "mongo_insert_one", "mongo_insert_many", "mongo_update_one",
   "mongo_update_many", "mongo_delete_one", "mongo_delete_many",
   "mongo_create_index", "ldap_add", "ldap_modify", "ldap_delete"]

/-- `appliesTo` of an operation, read off the listing conditions: generic
SQL tools apply to the SQL backends, native tools to their own backend. -/
def appliesTo (nm : String) (k : BackendKind) : Bool :=
  (sqlToolNames.contains nm && !isRedisKind k && !isMongoKind k && !isLDAPKind k)
    || (redisToolNames.contains nm && isRedisKind k)
    || (mongoToolNames.contains nm && isMongoKind k)
    || (ldapToolNames.contains nm && isLDAPKind k)

/-! ## LDAP adapter: `authenticate` (adapters/ldap.ts) -/

/-- Observable behaviour of the underlying `ldapts` client: each
`bind(dn, password)` either succeeds or throws, as does `unbind()`. -/
structure LdapClientModel where
  bindOutcome : String → String → Except String Unit
  unbindOutcome : Except String Unit

/-- The credentials stored by `connect` (the constructor initialises both
fields to the empty string, which is falsy). -/
structure LdapAdapterState where
  bindDN : String
  bindPassword : String

/-- One client operation attempted by `authenticate`, for the trace. -/
inductive LdapOp where
  | bind (dn password : String)
  | unbind
deriving DecidableEq, Repr

/-- `LDAPAdapter.authenticate(dn, password)`: try
`bind(dn, password); unbind();` then, still inside the `try`, re-bind with
the stored credentials if both are truthy, and return `true`; any throw is
caught and yields `false`.  Returns the result together with the trace of
attempted client operations. -/
def ldapAuthenticate (cl : LdapClientModel) (ast : LdapAdapterState)
    (dn password : String) : Bool × List LdapOp :=
  match cl.bindOutcome dn password with
  | .error _ => (false, [.bind dn password])
  | .ok _ =>
    match cl.unbindOutcome with
    | .error _ => (false, [.bind dn password, .unbind])
    | .ok _ =>
      if ast.bindDN != "" && ast.bindPassword != "" then
        match cl.bindOutcome ast.bindDN ast.bindPassword with
        | .error _ =>
          (false, [.bind dn password, .unbind, .bind ast.bindDN ast.bindPassword])
        | .ok _ =>
          (true, [.bind dn password, .unbind, .bind ast.bindDN ast.bindPassword])
      else (true, [.bind dn password, .unbind])

/-! ## Helper lemmas and shared witnesses -/

/-- A concrete adapter whose every method returns `null`, used to
instantiate universally quantified theorems at concrete inputs. -/
def constAdapter : Adapter := ⟨fun _ => .ok .null⟩

theorem runCall_calls (ad : Adapter) (c : AdapterCall) (w : JVal → JVal) :
    (runCall ad c w).calls = [c] := by
  unfold runCall
  cases ad.behave c <;> rfl

theorem handle_calls (st : ServerState) (ad : Adapter) (nm : String) (args : Args) :
    (handle st ad nm args).2 = (handleCore st ad nm args).calls := by
  unfold handle
  cases h : (handleCore st ad nm args).out <;> simp [h]

theorem dispatch_query (st : ServerState) (ad : Adapter) (args : Args) :
    handleCore st ad "query" args = queryCase st ad args := rfl

theorem dispatch_execute_sql (st : ServerState) (ad : Adapter) (args : Args) :
    handleCore st ad "execute_sql" args = executeSqlCase st ad args := rfl

theorem dispatch_list_tables (st : ServerState) (ad : Adapter) (args : Args) :
    handleCore st ad "list_tables" args = listTablesCase st ad args := rfl

theorem dispatch_describe_table (st : ServerState) (ad : Adapter) (args : Args) :
    handleCore st ad "describe_table" args = describeTableCase st ad args := rfl

theorem dispatch_list_schemas (st : ServerState) (ad : Adapter) (args : Args) :
    handleCore st ad "list_schemas" args = listSchemasCase st ad args := rfl

theorem dispatch_explain_query (st : ServerState) (ad : Adapter) (args : Args) :
    handleCore st ad "explain_query" args = explainQueryCase st ad args := rfl

theorem dispatch_get_indexes (st : ServerState) (ad : Adapter) (args : Args) :
    handleCore st ad "get_indexes" args = getIndexesCase st ad args := rfl

theorem dispatch_get_foreign_keys (st : ServerState) (ad : Adapter) (args : Args) :
    handleCore st ad "get_foreign_keys" args = getForeignKeysCase st ad args := rfl

theorem dispatch_get_table_size (st : ServerState) (ad : Adapter) (args : Args) :
    handleCore st ad "get_table_size" args = getTableSizeCase st ad args := rfl

theorem dispatch_list_views (st : ServerState) (ad : Adapter) (args : Args) :
    handleCore st ad "list_views" args = listViewsCase st ad args := rfl

theorem dispatch_describe_view (st : ServerState) (ad : Adapter) (args : Args) :
    handleCore st ad "describe_view" args = describeViewCase st ad args := rfl

theorem dispatch_search_tables (st : ServerState) (ad : Adapter) (args : Args) :
    handleCore st ad "search_tables" args = searchTablesCase st ad args := rfl

theorem dispatch_get_table_stats (st : ServerState) (ad : Adapter) (args : Args) :
    handleCore st ad "get_table_stats" args = getTableStatsCase st ad args := rfl

theorem dispatch_redis_get (st : ServerState) (ad : Adapter) (args : Args) :
    handleCore st ad "redis_get" args = redisGetCase st ad args := rfl

theorem dispatch_redis_set (st : ServerState) (ad : Adapter) (args : Args) :
    handleCore st ad "redis_set" args = redisSetCase st ad args := rfl

theorem dispatch_redis_del (st : ServerState) (ad : Adapter) (args : Args) :
    handleCore st ad "redis_del" args = redisDelCase st ad args := rfl

theorem dispatch_redis_keys (st : ServerState) (ad : Adapter) (args : Args) :
    handleCore st ad "redis_keys" args = redisKeysCase st ad args := rfl

theorem dispatch_redis_exists (st : ServerState) (ad : Adapter) (args : Args) :
    handleCore st ad "redis_exists" args = redisExistsCase st ad args := rfl

theorem dispatch_redis_ttl (st : ServerState) (ad : Adapter) (args : Args) :
    handleCore st ad "redis_ttl" args = redisTtlCase st ad args := rfl

theorem dispatch_redis_expire (st : ServerState) (ad : Adapter) (args : Args) :
    handleCore st ad "redis_expire" args = redisExpireCase st ad args := rfl

theorem dispatch_redis_type (st : ServerState) (ad : Adapter) (args : Args) :
    handleCore st ad "redis_type" args = redisTypeCase st ad args := rfl

theorem dispatch_redis_dbsize (st : ServerState) (ad : Adapter) (args : Args) :
    handleCore st ad "redis_dbsize" args = redisDbsizeCase st ad args := rfl

theorem dispatch_redis_info (st : ServerState) (ad : Adapter) (args : Args) :
    handleCore st ad "redis_info" args = redisInfoCase st ad args := rfl

theorem dispatch_redis_hget (st : ServerState) (ad : Adapter) (args : Args) :
    handleCore st ad "redis_hget" args = redisHgetCase st ad args := rfl

theorem dispatch_redis_hset (st : ServerState) (ad : Adapter) (args : Args) :
    handleCore st ad "redis_hset" args = redisHsetCase st ad args := rfl

theorem dispatch_redis_hgetall (st : ServerState) (ad : Adapter) (args : Args) :
    handleCore st ad "redis_hgetall" args = redisHgetallCase st ad args := rfl

theorem dispatch_redis_lrange (st : ServerState) (ad : Adapter) (args : Args) :
    handleCore st ad "redis_lrange" args = redisLrangeCase st ad args := rfl

theorem dispatch_redis_smembers (st : ServerState) (ad : Adapter) (args : Args) :
    handleCore st ad "redis_smembers" args = redisSmembersCase st ad args := rfl

theorem dispatch_redis_zrange (st : ServerState) (ad : Adapter) (args : Args) :
    handleCore st ad "redis_zrange" args = redisZrangeCase st ad args := rfl

theorem dispatch_mongo_find (st : ServerState) (ad : Adapter) (args : Args) :
    handleCore st ad "mongo_find" args = mongoFindCase st ad args := rfl

theorem dispatch_mongo_find_one (st : ServerState) (ad : Adapter) (args : Args) :
    handleCore st ad "mongo_find_one" args = mongoFindOneCase st ad args := rfl

theorem dispatch_mongo_insert_one (st : ServerState) (ad : Adapter) (args : Args) :
    handleCore st ad "mongo_insert_one" args = mongoInsertOneCase st ad args := rfl

theorem dispatch_mongo_insert_many (st : ServerState) (ad : Adapter) (args : Args) :
    handleCore st ad "mongo_insert_many" args = mongoInsertManyCase st ad args := rfl

theorem dispatch_mongo_update_one (st : ServerState) (ad : Adapter) (args : Args) :
    handleCore st ad "mongo_update_one" args = mongoUpdateOneCase st ad args := rfl

theorem dispatch_mongo_update_many (st : ServerState) (ad : Adapter) (args : Args) :
    handleCore st ad "mongo_update_many" args = mongoUpdateManyCase st ad args := rfl

theorem dispatch_mongo_delete_one (st : ServerState) (ad : Adapter) (args : Args) :
    handleCore st ad "mongo_delete_one" args = mongoDeleteOneCase st ad args := rfl

theorem dispatch_mongo_delete_many (st : ServerState) (ad : Adapter) (args : Args) :
    handleCore st ad "mongo_delete_many" args = mongoDeleteManyCase st ad args := rfl

theorem dispatch_mongo_count (st : ServerState) (ad : Adapter) (args : Args) :
    handleCore st ad "mongo_count" args = mongoCountCase st ad args := rfl

theorem dispatch_mongo_aggregate (st : ServerState) (ad : Adapter) (args : Args) :
    handleCore st ad "mongo_aggregate" args = mongoAggregateCase st ad args := rfl

theorem dispatch_mongo_list_collections (st : ServerState) (ad : Adapter) (args : Args) :
    handleCore st ad "mongo_list_collections" args = mongoListCollectionsCase st ad args := rfl

theorem dispatch_mongo_get_collection_stats (st : ServerState) (ad : Adapter) (args : Args) :
    handleCore st ad "mongo_get_collection_stats" args = mongoGetCollectionStatsCase st ad args := rfl

theorem dispatch_mongo_get_indexes (st : ServerState) (ad : Adapter) (args : Args) :
    handleCore st ad "mongo_get_indexes" args = mongoGetIndexesCase st ad args := rfl

theorem dispatch_mongo_create_index (st : ServerState) (ad : Adapter) (args : Args) :
    handleCore st ad "mongo_create_index" args = mongoCreateIndexCase st ad args := rfl

theorem dispatch_mongo_get_database_stats (st : ServerState) (ad : Adapter) (args : Args) :
    handleCore st ad "mongo_get_database_stats" args = mongoGetDatabaseStatsCase st ad args := rfl

theorem dispatch_ldap_search (st : ServerState) (ad : Adapter) (args : Args) :
    handleCore st ad "ldap_search" args = ldapSearchCase st ad args := rfl

theorem dispatch_ldap_authenticate (st : ServerState) (ad : Adapter) (args : Args) :
    handleCore st ad "ldap_authenticate" args = ldapAuthenticateCase st ad args := rfl

theorem dispatch_ldap_add (st : ServerState) (ad : Adapter) (args : Args) :
    handleCore st ad "ldap_add" args = ldapAddCase st ad args := rfl

theorem dispatch_ldap_modify (st : ServerState) (ad : Adapter) (args : Args) :
    handleCore st ad "ldap_modify" args = ldapModifyCase st ad args := rfl

theorem dispatch_ldap_delete (st : ServerState) (ad : Adapter) (args : Args) :
    handleCore st ad "ldap_delete" args = ldapDeleteCase st ad args := rfl

theorem dispatch_ldap_compare (st : ServerState) (ad : Adapter) (args : Args) :
    handleCore st ad "ldap_compare" args = ldapCompareCase st ad args := rfl

theorem dispatch_ldap_search_folder_structure (st : ServerState) (ad : Adapter) (args : Args) :
    handleCore st ad "ldap_search_folder_structure" args = ldapSearchFolderStructureCase st ad args := rfl

theorem dispatch_ldap_list_folders (st : ServerState) (ad : Adapter) (args : Args) :
    handleCore st ad "ldap_list_folders" args = ldapListFoldersCase st ad args := rfl

/-! ## Claim theorems -/

/-- C1 (counterexample): the claim says the override is treated
case-insensitively, so `"FALSE"` should resolve to `ReadWrite`; the
dispatcher compares case-sensitively and `"FALSE"` resolves to `ReadOnly`. -/
theorem policy_resolution_FALSE_counterexample :
    resolvePolicyMode (some "FALSE") = PolicyMode.ReadOnly ∧
    resolvePolicyMode (some "FALSE") ≠ PolicyMode.ReadWrite := by
  constructor
  · rfl
  · decide

/-- C1 (amended): `PolicyMode` resolution is case-sensitive — the resolved
mode is `ReadWrite` exactly when the override is the exact string
`"false"` or `"0"`; every other value, including `"FALSE"`, the empty
string, `"true"`, `"yes"`, `"1"`, and absence, resolves to `ReadOnly`. -/
theorem policy_resolution_case_sensitive (env : Option String) :
    resolvePolicyMode env =
      (if env = some "false" ∨ env = some "0" then PolicyMode.ReadWrite
       else PolicyMode.ReadOnly) := by
  unfold resolvePolicyMode resolveReadOnly
  by_cases h1 : env = some "false" <;> by_cases h2 : env = some "0" <;>
    simp_all

/-- C2: every operation whose case body consults the policy gate
(`mutating = true`), invoked while the server is read-only, yields the
error envelope with the fixed policy-violation message and performs no
adapter call, for every backend kind, adapter behaviour and arguments. -/
theorem mutating_blocked_under_readonly (k : BackendKind) (ad : Adapter)
    (nm : String) (args : Args) (h : nm ∈ mutatingOps) :
    handle ⟨k, true⟩ ad nm args =
      (⟨"Error: " ++ readOnlyMessage, true⟩, []) := by
  fin_cases h <;> rfl

/-- C2 (witness): the theorem applied to `redis_set` under a read-only
Redis server. -/
theorem mutating_blocked_under_readonly_witness :
    "redis_set" ∈ mutatingOps ∧
    handle ⟨BackendKind.redis, true⟩ constAdapter "redis_set" [] =
      (⟨"Error: " ++ readOnlyMessage, true⟩, []) :=
  ⟨by decide,
   mutating_blocked_under_readonly BackendKind.redis constAdapter "redis_set" []
     (by decide)⟩

/-- C3 (counterexample): invoking `redis_get` while a PostgreSQL adapter is
active yields the error message `This tool is only available for Redis`,
which differs from the `Unknown tool` response for an unregistered name —
the caller can distinguish the two cases. -/
theorem applicability_mismatch_distinguishable :
    (handle ⟨BackendKind.postgres, true⟩ constAdapter "redis_get" []).1 =
      ⟨"Error: " ++ redisOnlyMessage, true⟩ ∧
    (handle ⟨BackendKind.postgres, true⟩ constAdapter "no_such_tool" []).1 =
      ⟨"Error: " ++ ("Unknown tool: " ++ "no_such_tool"), true⟩ ∧
    (handle ⟨BackendKind.postgres, true⟩ constAdapter "redis_get" []).1 ≠
      (handle ⟨BackendKind.postgres, true⟩ constAdapter "no_such_tool" []).1 := by
  refine ⟨rfl, rfl, ?_⟩
  decide

/-- C3 (amended): invoking a backend-native operation while a different
backend is active yields a backend-availability error envelope (message
`This tool is only available for <Backend>`) and performs no adapter call;
this response is distinguishable from `UnknownOperation`, so the caller
does learn that the operation belongs to another backend.  (Stated under
`readOnly = false`; for the mutating native operations the policy gate
fires first under read-only mode.) -/
theorem applicability_mismatch_response (k : BackendKind) (ad : Adapter)
    (nm : String) (args : Args) :
    (nm ∈ redisToolNames → isRedisKind k = false →
      handle ⟨k, false⟩ ad nm args =
        (⟨"Error: " ++ redisOnlyMessage, true⟩, [])) ∧
    (nm ∈ mongoToolNames → isMongoKind k = false →
      handle ⟨k, false⟩ ad nm args =
        (⟨"Error: " ++ mongoOnlyMessage, true⟩, [])) ∧
    (nm ∈ ldapToolNames → isLDAPKind k = false →
      handle ⟨k, false⟩ ad nm args =
        (⟨"Error: " ++ ldapOnlyMessage, true⟩, [])) := by
  refine ⟨fun h hk => ?_, fun h hk => ?_, fun h hk => ?_⟩ <;>
    fin_cases h <;>
      simp [handle, hk, checkReadOnly,
        dispatch_redis_get, dispatch_redis_set, dispatch_redis_del,
        dispatch_redis_keys, dispatch_redis_exists, dispatch_redis_ttl,
        dispatch_redis_expire, dispatch_redis_type, dispatch_redis_dbsize,
        dispatch_redis_info, dispatch_redis_hget, dispatch_redis_hset,
        dispatch_redis_hgetall, dispatch_redis_lrange, dispatch_redis_smembers,
        dispatch_redis_zrange, dispatch_mongo_find, dispatch_mongo_find_one,
        dispatch_mongo_insert_one, dispatch_mongo_insert_many,
        dispatch_mongo_update_one, dispatch_mongo_update_many,
        dispatch_mongo_delete_one, dispatch_mongo_delete_many,
        dispatch_mongo_count, dispatch_mongo_aggregate,
        dispatch_mongo_list_collections, dispatch_mongo_get_collection_stats,
        dispatch_mongo_get_indexes, dispatch_mongo_create_index,
        dispatch_mongo_get_database_stats, dispatch_ldap_search,
        dispatch_ldap_authenticate, dispatch_ldap_add, dispatch_ldap_modify,
        dispatch_ldap_delete, dispatch_ldap_compare,
        dispatch_ldap_search_folder_structure, dispatch_ldap_list_folders,
        redisGetCase, redisSetCase, redisDelCase, redisKeysCase,
        redisExistsCase, redisTtlCase, redisExpireCase, redisTypeCase,
        redisDbsizeCase, redisInfoCase, redisHgetCase, redisHsetCase,
        redisHgetallCase, redisLrangeCase, redisSmembersCase, redisZrangeCase,
        mongoFindCase, mongoFindOneCase, mongoInsertOneCase,
        mongoInsertManyCase, mongoUpdateOneCase, mongoUpdateManyCase,
        mongoDeleteOneCase, mongoDeleteManyCase, mongoCountCase,
        mongoAggregateCase, mongoListCollectionsCase,
        mongoGetCollectionStatsCase, mongoGetIndexesCase, mongoCreateIndexCase,
        mongoGetDatabaseStatsCase, ldapSearchCase, ldapAuthenticateCase,
        ldapAddCase, ldapModifyCase, ldapDeleteCase, ldapCompareCase,
        ldapSearchFolderStructureCase, ldapListFoldersCase]

/-- C3 (witness): the amended theorem applied to `redis_get` against an
active PostgreSQL adapter in read-write mode. -/
theorem applicability_mismatch_response_witness :
    ("redis_get" ∈ redisToolNames) ∧
    isRedisKind BackendKind.postgres = false ∧
    handle ⟨BackendKind.postgres, false⟩ constAdapter "redis_get" [] =
      (⟨"Error: " ++ redisOnlyMessage, true⟩, []) :=
  ⟨by decide, by decide,
   (applicability_mismatch_response BackendKind.postgres constAdapter
     "redis_get" []).1 (by decide) (by decide)⟩

/-- C4: a `query` invocation whose statement does not pass the lexical
SELECT-prefix test is rejected with the statement-class error before any
adapter call, for every server state — in particular also in read-write
mode; the policy gate is not involved. -/
theorem query_rejects_non_select (st : ServerState) (ad : Adapter)
    (args : Args) (s : String) (hs : getArg args "sql" = some (JVal.str s))
    (hsel : selectPrefixed s = false) :
    handle st ad "query" args =
      (⟨"Error: " ++ queryOnlySelectMessage, true⟩, []) := by
  simp [handle, dispatch_query, queryCase, hs, hsel]

/-- C4 (witness): a `DELETE` statement given to `query` under read-write
mode is rejected and the adapter is not called. -/
theorem query_rejects_non_select_witness :
    getArg [("sql", JVal.str "DELETE FROM t")] "sql" =
      some (JVal.str "DELETE FROM t") ∧
    selectPrefixed "DELETE FROM t" = false ∧
    handle ⟨BackendKind.postgres, false⟩ constAdapter "query"
        [("sql", JVal.str "DELETE FROM t")] =
      (⟨"Error: " ++ queryOnlySelectMessage, true⟩, []) :=
  ⟨rfl, by decide,
   query_rejects_non_select ⟨BackendKind.postgres, false⟩ constAdapter
     [("sql", JVal.str "DELETE FROM t")] "DELETE FROM t" rfl (by decide)⟩

/-- C5: an operation name outside the registry falls to the `default` case
of the `switch`: the response is the `Unknown tool` error envelope and no
adapter method is invoked, for every state, adapter and arguments. -/
theorem unknown_tool_response (st : ServerState) (ad : Adapter) (nm : String)
    (args : Args) (h : nm ∉ allToolNames) :
    handle st ad nm args =
      (⟨"Error: " ++ ("Unknown tool: " ++ nm), true⟩, []) := by
  have hfind : List.find? (fun c => c.1 == nm) toolCases = none := by
    rw [List.find?_eq_none]
    intro x hx
    simp only [beq_iff_eq]
    intro hxe
    apply h
    have hm : x.1 ∈ toolCases.map Prod.fst := List.mem_map_of_mem _ hx
    rw [show toolCases.map Prod.fst = allToolNames from rfl] at hm
    rwa [hxe] at hm
  simp [handle, handleCore, hfind]

/-- C5 (witness): the theorem applied to the unregistered name
`drop_database`. -/
theorem unknown_tool_response_witness :
    "drop_database" ∉ allToolNames ∧
    handle ⟨BackendKind.postgres, true⟩ constAdapter "drop_database" [] =
      (⟨"Error: " ++ ("Unknown tool: " ++ "drop_database"), true⟩, []) :=
  ⟨by decide,
   unknown_tool_response ⟨BackendKind.postgres, true⟩ constAdapter
     "drop_database" [] (by decide)⟩

/-- An adapter whose every method throws, exercising the backend-error
path of the dispatcher. -/
def errorAdapter : Adapter := ⟨fun _ => .error "connection refused"⟩

/-- C6: with an installed adapter, the dispatcher never lets an error
escape: the handler always returns an envelope, whose error flag is set
exactly when the `switch` body threw, in which case the text is the thrown
message prefixed with `Error: `; otherwise the text is the success
payload. -/
theorem dispatcher_catches_all (ad : Adapter) (st : ServerState) (nm : String)
    (args : Args) :
    ∃ (env : Envelope) (calls : List AdapterCall),
      handleRequest (some ad) st nm args = Except.ok (env, calls) ∧
      (env.isError = true ↔
        ∃ e, (handleCore st ad nm args).out = Except.error e ∧
          env.text = "Error: " ++ e) ∧
      (env.isError = false ↔
        ∃ p, (handleCore st ad nm args).out = Except.ok p ∧ env.text = p) := by
  cases h : (handleCore st ad nm args).out with
  | ok p =>
    refine ⟨⟨p, false⟩, (handleCore st ad nm args).calls, ?_, ?_, ?_⟩
    · simp [handleRequest, handle, h]
    · simp [h]
    · simp [h]
  | error e =>
    refine ⟨⟨"Error: " ++ e, true⟩, (handleCore st ad nm args).calls, ?_, ?_, ?_⟩
    · simp [handleRequest, handle, h]
    · simp [h]
    · simp [h]

/-- C6 (witness): the theorem applied to a `list_tables` invocation whose
adapter throws. -/
theorem dispatcher_catches_all_witness :
    ∃ (env : Envelope) (calls : List AdapterCall),
      handleRequest (some errorAdapter) ⟨BackendKind.postgres, false⟩
          "list_tables" [] = Except.ok (env, calls) ∧
      (env.isError = true ↔
        ∃ e, (handleCore ⟨BackendKind.postgres, false⟩ errorAdapter
            "list_tables" []).out = Except.error e ∧
          env.text = "Error: " ++ e) ∧
      (env.isError = false ↔
        ∃ p, (handleCore ⟨BackendKind.postgres, false⟩ errorAdapter
            "list_tables" []).out = Except.ok p ∧ env.text = p) :=
  dispatcher_catches_all errorAdapter ⟨BackendKind.postgres, false⟩
    "list_tables" []

/-- C7: for every backend kind the listed catalog has no duplicate
operation names, every listed operation applies to the active kind, and —
the listing being a pure function of the immutable constructor flags —
listing twice yields the identical ordered sequence. -/
theorem catalog_wellformed (k : BackendKind) :
    (listTools k).Nodup ∧
    (∀ nm ∈ listTools k, appliesTo nm k = true) ∧
    listTools k = listTools k := by
  cases k <;> exact ⟨by decide, by decide, rfl⟩

/-- C7 (witness): the theorem applied to the Redis catalog and its
`redis_get` entry. -/
theorem catalog_wellformed_witness :
    (listTools BackendKind.redis).Nodup ∧
    appliesTo "redis_get" BackendKind.redis = true :=
  ⟨(catalog_wellformed BackendKind.redis).1,
   (catalog_wellformed BackendKind.redis).2.1 "redis_get" (by decide)⟩

/-- Arguments that let an operation reach its backend call: the only
dispatcher-side argument validation is the SELECT-prefix test of `query`,
so only `query` constrains its arguments. -/
def argsReachBackend (nm : String) (args : Args) : Prop :=
  nm = "query" →
    ∃ s, getArg args "sql" = some (JVal.str s) ∧ selectPrefixed s = true

/-- C8: every catalog operation that does not consult the policy gate
(`mutating = false`), invoked under read-only mode with arguments passing
the dispatcher-side validation, performs at least one adapter call: the
policy gate never blocks a non-mutating operation. -/
theorem nonmutating_reaches_backend (k : BackendKind) (ad : Adapter)
    (nm : String) (args : Args) (hmem : nm ∈ listTools k)
    (hmut : nm ∉ mutatingOps) (hwf : argsReachBackend nm args) :
    (handle ⟨k, true⟩ ad nm args).2 ≠ [] := by
  by_cases hq : nm = "query"
  · subst hq
    obtain ⟨s, hs, hsel⟩ := hwf rfl
    rw [handle_calls]
    simp [dispatch_query, queryCase, hs, hsel, runCall_calls]
  · rw [handle_calls]
    cases k <;> fin_cases hmem <;>
      first
      | exact absurd rfl hq
      | exact absurd (by decide) hmut
      | simp [runCall_calls, checkReadOnly, isRedisKind, isMongoKind, isLDAPKind,
        dispatch_list_tables, dispatch_describe_table, dispatch_list_schemas,
        dispatch_explain_query, dispatch_get_indexes, dispatch_get_foreign_keys,
        dispatch_get_table_size, dispatch_list_views, dispatch_describe_view,
        dispatch_search_tables, dispatch_get_table_stats,
        dispatch_redis_get, dispatch_redis_keys, dispatch_redis_exists,
        dispatch_redis_ttl, dispatch_redis_type, dispatch_redis_dbsize,
        dispatch_redis_info, dispatch_redis_hget, dispatch_redis_hgetall,
        dispatch_redis_lrange, dispatch_redis_smembers, dispatch_redis_zrange,
        dispatch_mongo_find, dispatch_mongo_find_one, dispatch_mongo_count,
        dispatch_mongo_aggregate, dispatch_mongo_list_collections,
        dispatch_mongo_get_collection_stats, dispatch_mongo_get_indexes,
        dispatch_mongo_get_database_stats, dispatch_ldap_search,
        dispatch_ldap_authenticate, dispatch_ldap_compare,
        dispatch_ldap_search_folder_structure, dispatch_ldap_list_folders,
        listTablesCase, describeTableCase, listSchemasCase, explainQueryCase,
        getIndexesCase, getForeignKeysCase, getTableSizeCase, listViewsCase,
        describeViewCase, searchTablesCase, getTableStatsCase,
        redisGetCase, redisKeysCase, redisExistsCase, redisTtlCase,
        redisTypeCase, redisDbsizeCase, redisInfoCase, redisHgetCase,
        redisHgetallCase, redisLrangeCase, redisSmembersCase, redisZrangeCase,
        mongoFindCase, mongoFindOneCase, mongoCountCase, mongoAggregateCase,
        mongoListCollectionsCase, mongoGetCollectionStatsCase,
        mongoGetIndexesCase, mongoGetDatabaseStatsCase, ldapSearchCase,
        ldapAuthenticateCase, ldapCompareCase, ldapSearchFolderStructureCase,
        ldapListFoldersCase]

/-- C8 (witness): the theorem applied to `redis_get` under a read-only
Redis server. -/
theorem nonmutating_reaches_backend_witness :
    "redis_get" ∈ listTools BackendKind.redis ∧
    "redis_get" ∉ mutatingOps ∧
    (handle ⟨BackendKind.redis, true⟩ constAdapter "redis_get"
      [("key", JVal.str "k")]).2 ≠ [] :=
  ⟨by decide, by decide,
   nonmutating_reaches_backend BackendKind.redis constAdapter "redis_get"
     [("key", JVal.str "k")] (by decide) (by decide)
     (fun h => absurd h (by decide))⟩

/-- Modelled from the spec: the contract of the external SQLite driver
(spec §1/§6 treat native drivers as collaborators specified only at their
interface boundary) — a handle opened with the `readonly` option set
rejects every mutating statement. -/
def sqliteHandleRejectsMutation (readonlyOpt : Bool) : Bool := readonlyOpt

/-- C9: the SQLite adapter and the dispatcher resolve `READ_ONLY_MODE`
with different predicates — the adapter opens the handle read-only for
every value except the exact string `"false"` (its `=== "true"` disjunct
is redundant), while the dispatcher also accepts `"0"`; consequently under
`"0"` the policy mode is `ReadWrite`, `execute_sql` passes the gate and
reaches the adapter, yet the handle was opened read-only and (by the
driver contract) rejects every mutating statement. -/
theorem sqlite_readonly_divergence :
    (∀ env, sqliteReadonlyFlag env = !(env == some "false")) ∧
    (∀ env, (resolveReadOnly env = false ∧ sqliteReadonlyFlag env = true) ↔
      env = some "0") ∧
    resolvePolicyMode (some "0") = PolicyMode.ReadWrite ∧
    sqliteReadonlyFlag (some "0") = true ∧
    sqliteHandleRejectsMutation (sqliteReadonlyFlag (some "0")) = true ∧
    (∀ (ad : Adapter) (args : Args),
      (handle ⟨BackendKind.sqlite, resolveReadOnly (some "0")⟩ ad
        "execute_sql" args).2 ≠ []) := by
  refine ⟨?_, ?_, rfl, rfl, rfl, ?_⟩
  · intro env
    by_cases h : env = some "true" <;> simp_all [sqliteReadonlyFlag]
  · intro env
    by_cases h1 : env = some "false" <;> by_cases h2 : env = some "0" <;>
      simp_all [resolveReadOnly, sqliteReadonlyFlag]
  · intro ad args
    rw [handle_calls]
    have hro : resolveReadOnly (some "0") = false := rfl
    simp [dispatch_execute_sql, executeSqlCase, checkReadOnly, hro,
      runCall_calls]

/-- C9 (witness): the divergence theorem applied at the override value
`"0"` and a concrete adapter. -/
theorem sqlite_readonly_divergence_witness :
    ((resolveReadOnly (some "0") = false ∧
      sqliteReadonlyFlag (some "0") = true) ↔ some "0" = some "0") ∧
    (handle ⟨BackendKind.sqlite, resolveReadOnly (some "0")⟩ constAdapter
      "execute_sql" [("sql", JVal.str "DELETE FROM t")]).2 ≠ [] :=
  ⟨sqlite_readonly_divergence.2.1 (some "0"),
   sqlite_readonly_divergence.2.2.2.2.2 constAdapter
     [("sql", JVal.str "DELETE FROM t")]⟩

/-- A concrete LDAP client on which only the stored administrative
credentials bind successfully. -/
def cexLdapClient : LdapClientModel :=
  ⟨fun dn _pw =>
      if dn == "cn=admin,dc=example,dc=com" then .ok ()
      else .error "Invalid Credentials",
   .ok ()⟩

/-- C10 (counterexample): when the initial bind fails, `authenticate`
returns `false` from the `catch` without attempting any further client
operation — in particular it does not re-bind with the stored credentials,
although they exist; the claimed re-bind happens on the success path. -/
theorem ldap_authenticate_no_rebind_on_failure :
    (ldapAuthenticate cexLdapClient
        ⟨"cn=admin,dc=example,dc=com", "secret"⟩
        "cn=user,dc=example,dc=com" "bad").1 = false ∧
    (ldapAuthenticate cexLdapClient
        ⟨"cn=admin,dc=example,dc=com", "secret"⟩
        "cn=user,dc=example,dc=com" "bad").2 =
      [LdapOp.bind "cn=user,dc=example,dc=com" "bad"] ∧
    LdapOp.bind "cn=admin,dc=example,dc=com" "secret" ∉
      (ldapAuthenticate cexLdapClient
        ⟨"cn=admin,dc=example,dc=com", "secret"⟩
        "cn=user,dc=example,dc=com" "bad").2 := by
  refine ⟨rfl, rfl, ?_⟩
  decide

/-- C10 (amended): `authenticate` is total over its error branch — any
failure of the initial bind is caught and yields `false` with no further
client operation; it returns `true` exactly when the initial bind, the
unbind, and (when stored credentials exist) the success-path re-bind all
succeed; and an `ldap_authenticate` invocation whose adapter call returns
a value produces a non-error envelope. -/
theorem ldap_authenticate_total (cl : LdapClientModel)
    (ast : LdapAdapterState) (dn password : String) :
    (∀ e, cl.bindOutcome dn password = .error e →
      ldapAuthenticate cl ast dn password =
        (false, [LdapOp.bind dn password])) ∧
    ((ldapAuthenticate cl ast dn password).1 = true ↔
      (cl.bindOutcome dn password = .ok () ∧ cl.unbindOutcome = .ok () ∧
        ((ast.bindDN != "" && ast.bindPassword != "") = true →
          cl.bindOutcome ast.bindDN ast.bindPassword = .ok ()))) ∧
    (∀ (st : ServerState) (ad : Adapter) (args : Args) (v : JVal),
      isLDAPKind st.kind = true →
      ad.behave (AdapterCall.ldapAuthenticate (getArg args "dn")
        (getArg args "password")) = .ok v →
      (handle st ad "ldap_authenticate" args).1.isError = false) := by
  refine ⟨?_, ?_, ?_⟩
  · intro e he
    simp [ldapAuthenticate, he]
  · cases h1 : cl.bindOutcome dn password with
    | error e => simp [ldapAuthenticate, h1]
    | ok u =>
      cases u
      cases h2 : cl.unbindOutcome with
      | error e => simp [ldapAuthenticate, h1, h2]
      | ok u2 =>
        cases u2
        cases hb : (ast.bindDN != "" && ast.bindPassword != "") with
        | false => simp [ldapAuthenticate, h1, h2, hb]
        | true =>
          cases h3 : cl.bindOutcome ast.bindDN ast.bindPassword with
          | error e => simp [ldapAuthenticate, h1, h2, hb, h3]
          | ok u3 =>
            cases u3
            simp [ldapAuthenticate, h1, h2, hb, h3]
  · intro st ad args v hk hbe
    simp [handle, dispatch_ldap_authenticate, ldapAuthenticateCase, hk,
      runCall, hbe]

/-- C10 (witness): the amended theorem applied to a concrete failing bind
with stored credentials, and to a concrete `ldap_authenticate` invocation
on an active LDAP backend. -/
theorem ldap_authenticate_total_witness :
    ldapAuthenticate cexLdapClient ⟨"cn=admin,dc=example,dc=com", "secret"⟩
        "cn=other,dc=example,dc=com" "pw" =
      (false, [LdapOp.bind "cn=other,dc=example,dc=com" "pw"]) ∧
    (handle ⟨BackendKind.ldap, true⟩ constAdapter "ldap_authenticate"
      []).1.isError = false :=
  ⟨(ldap_authenticate_total cexLdapClient
      ⟨"cn=admin,dc=example,dc=com", "secret"⟩
      "cn=other,dc=example,dc=com" "pw").1 "Invalid Credentials" rfl,
   (ldap_authenticate_total cexLdapClient
      ⟨"cn=admin,dc=example,dc=com", "secret"⟩
      "cn=other,dc=example,dc=com" "pw").2.2 ⟨BackendKind.ldap, true⟩
     constAdapter [] JVal.null rfl rfl⟩

end MCPDB
